import Mathlib

/-!
Shallow embedding of `src/debug_model.py` (scipathj repository).

The script is a linear diagnostic: check a fixed path, load a saved model
twice through the TensorFlow runtime, run two first-match scans over the
graph node list, and print the first matching variable's name, shape and
a 10-element sample of its flattened contents.  The external runtime is
modelled as an oracle `Nat → Except String Model` giving the result of
the i-th `tf.saved_model.load(model_path)` call; every fallible runtime
operation is an `Except String` value.  Scalar tensor contents are
abstracted as integers: the script never computes on the values, it only
slices and formats them.  Output is a list of `Out` items: `Out.line s`
for `print(s)` and `Out.traceback` for `traceback.print_exc()`.
-/

namespace DebugModel

/-- Containment of one character list inside another: the needle is a
prefix of some suffix of the haystack. -/
def containsSub (needle : List Char) : List Char → Bool
  | [] => needle.isEmpty
  | c :: rest => needle.isPrefixOf (c :: rest) || containsSub needle rest

/-- Python substring containment `needle in hay` (str.__contains__). -/
def pyContains (needle hay : String) : Bool :=
  containsSub needle.toList hay.toList

/-- Python `str.lower()` restricted to ASCII, which covers every name the
script compares (TensorFlow node/variable names are ASCII). -/
def pyLower (s : String) : String :=
  String.mk (s.toList.map Char.toLower)

/-- One item of the script's observable output: a printed line
(`print(...)`) or the stack trace emitted by `traceback.print_exc()`,
whose text is runtime-produced and therefore kept abstract. -/
inductive Out where
  | line (s : String)
  | traceback
deriving DecidableEq, Repr

/-- One graph node record (`graph_def.node[i]`, a NodeDef protobuf):
name, operation tag, input references, attribute mapping.  The protobuf
message always has the `attr` field, so `hasattr(node, 'attr')` from
line 21 of the source is structurally true here; the attribute mapping
is an association list from key to a rendered attribute value. -/
structure NodeDef where
  name : String
  op : String
  input : List String
  attr : List (String × String)
deriving DecidableEq, Repr

/-- The graph description `concrete_func.graph.as_graph_def()`: a flat
ordered list of node records. -/
structure GraphDef where
  node : List NodeDef
deriving DecidableEq, Repr

/-- A concrete function retrieved from `model.signatures[...]`.  The only
use the script makes of it is `concrete_func.graph.as_graph_def()`,
modelled as a fallible retrieval of the graph description. -/
structure ConcreteFunc where
  asGraphDef : Except String GraphDef
deriving Repr

/-- One variable record from the loaded model's `.variables` collection:
name, shape, and the result of materialising `var.numpy().flatten()` as
a flat scalar sequence (fallible: `numpy()` is a runtime call). -/
structure Variable where
  name : String
  shape : List Nat
  numpyFlat : Except String (List Int)
deriving Repr

/-- A loaded model handle (`tf.saved_model.load(...)`): its signature
mapping (association list, Python-dict lookup) and its `.variables`
collection. -/
structure Model where
  signatures : List (String × ConcreteFunc)
  vars : List Variable
deriving Repr

/-- The hard-coded model path from line 5 of the source. -/
def model_path : String := "src/main/resources/models/2D/he_heavy_augment"

/-- Python dict lookup `model.signatures[key]`: a missing key raises
`KeyError(key)`, whose message formats as the quoted key. -/
def lookupSig : List (String × ConcreteFunc) → String → Except String ConcreteFunc
  | [], k => .error ("'" ++ k ++ "'")
  | (k', v) :: rest, k => if k' == k then .ok v else lookupSig rest k

/-- Filter of the first scan (line 18 of the source):
`'conv2d' in node.name.lower() and ('kernel' in node.name or 'weight' in node.name)`. -/
def firstConvPred (name : String) : Bool :=
  pyContains "conv2d" (pyLower name) && (pyContains "kernel" name || pyContains "weight" name)

/-- Lines 21-22 of the source: print the shape attribute when the key
`shape` is present in the node's attribute mapping. -/
def shapeAttrOut (n : NodeDef) : List Out :=
  match n.attr.lookup "shape" with
  | some v => [Out.line ("Shape: " ++ v)]
  | none => []

/-- First scan (lines 17-23): walk the node list, print name, op and
optional shape of the first node satisfying `firstConvPred`, then break. -/
def firstScanLoop : List NodeDef → List Out
  | [] => []
  | n :: rest =>
    if firstConvPred n.name then
      Out.line ("Node: " ++ n.name) :: Out.line ("Op: " ++ n.op) :: shapeAttrOut n
    else firstScanLoop rest

/-- Filter of the second scan (line 27 of the source):
`node.op == 'Conv2D' and 'conv2d_1' in node.name`. -/
def conv2dPred (n : NodeDef) : Bool :=
  n.op == "Conv2D" && pyContains "conv2d_1" n.name

/-- Rendering of a Python list-like repr; the exact text is the external
runtime's formatting, opaque to the claims. -/
def renderStrList (l : List String) : String := toString l

/-- Rendering of a shape (TensorShape repr). -/
def renderNatList (l : List Nat) : String := toString l

/-- Rendering of a flat numeric sample (numpy array repr). -/
def renderIntList (l : List Int) : String := toString l

/-- Second scan (lines 26-30): print name and input references of the
first node satisfying `conv2dPred`, then break. -/
def secondScanLoop : List NodeDef → List Out
  | [] => []
  | n :: rest =>
    if conv2dPred n then
      [Out.line ("Conv2D node: " ++ n.name), Out.line ("Inputs: " ++ renderStrList n.input)]
    else secondScanLoop rest

/-- Filter of the variable scan (line 35 of the source):
`'conv2d_1' in var.name and 'kernel' in var.name`. -/
def varPred (v : Variable) : Bool :=
  pyContains "conv2d_1" v.name && pyContains "kernel" v.name

/-- Variable scan (lines 34-39): for the first variable satisfying
`varPred`, print its name and shape; then `var.numpy()` is evaluated
inside the third print, so a runtime failure there leaves the first two
lines printed and propagates the exception (second component).  The
values line shows `flatten()[:10]`, i.e. `List.take 10`. -/
def varScanLoop : List Variable → List Out × Option String
  | [] => ([], none)
  | v :: rest =>
    if varPred v then
      match v.numpyFlat with
      | .error msg =>
        ([Out.line ("Variable: " ++ v.name), Out.line ("Shape: " ++ renderNatList v.shape)],
         some msg)
      | .ok xs =>
        ([Out.line ("Variable: " ++ v.name), Out.line ("Shape: " ++ renderNatList v.shape),
          Out.line ("First few values: " ++ renderIntList (xs.take 10))],
         none)
    else varScanLoop rest

/-- The variable section fed by the second load's result (line 34):
a load failure propagates as the exception, otherwise the scan runs
over the model's `.variables` collection. -/
def varSection : Except String Model → List Out × Option String
  | .error msg => ([], some msg)
  | .ok m => varScanLoop m.vars

/-- Output of the `except` clause (lines 41-44): the error message line
and the printed stack trace, or nothing when no exception was raised. -/
def excSuffix : Option String → List Out
  | none => []
  | some msg => [Out.line ("Error: " ++ msg), Out.traceback]

/-- Body of the `try` block (lines 8-39).  The oracle `o` gives the
result of the i-th `tf.saved_model.load(model_path)` call.  Returns the
lines printed inside the block, the pending exception (if any), and the
log of paths passed to the load operation, in call order. -/
def tryBody (o : Nat → Except String Model) : List Out × Option String × List String :=
  match o 0 with
  | .error msg => ([], some msg, [model_path])
  | .ok model =>
    match lookupSig model.signatures "serving_default" with
    | .error msg => ([], some msg, [model_path])
    | .ok cf =>
      match cf.asGraphDef with
      | .error msg => ([], some msg, [model_path])
      | .ok gd =>
        (Out.line "=== FIRST CONV LAYER INFO ===" ::
           (firstScanLoop gd.node ++ secondScanLoop gd.node
             ++ (Out.line "\n=== VARIABLES ===" :: (varSection (o 1)).1)),
         (varSection (o 1)).2,
         [model_path, model_path])

/-- The whole script (lines 5-46): path check, guarded block with the
top-level `except` appending the error report, or the not-found message.
Returns the full output stream and the load-call log. -/
def run (o : Nat → Except String Model) (pathExists : Bool) : List Out × List String :=
  if pathExists then
    ((tryBody o).1 ++ excSuffix (tryBody o).2.1, (tryBody o).2.2)
  else
    ([Out.line ("Model path not found: " ++ model_path)], [])

/-- The graph node list as obtained from a load result by lines 8-14:
load, resolve `serving_default`, read the graph description. -/
def getNodes (r : Except String Model) : Except String (List NodeDef) :=
  match r with
  | .error msg => .error msg
  | .ok m =>
    match lookupSig m.signatures "serving_default" with
    | .error msg => .error msg
    | .ok cf =>
      match cf.asGraphDef with
      | .error msg => .error msg
      | .ok gd => .ok gd.node

/-- The variable collection as obtained from a load result by line 34. -/
def getVars (r : Except String Model) : Except String (List Variable) :=
  match r with
  | .error msg => .error msg
  | .ok m => .ok m.vars

/-- Variable section expressed over the projected observation. -/
def varSectionV : Except String (List Variable) → List Out × Option String
  | .error msg => ([], some msg)
  | .ok vs => varScanLoop vs

/-- The script's output as a function of only what it observes: the
path-existence bit, the first load's graph node list (or failure), and
the second load's variable collection (or failure). -/
def runView (pe : Bool) (gn : Except String (List NodeDef))
    (gv : Except String (List Variable)) : List Out × List String :=
  if pe then
    match gn with
    | .error msg => (excSuffix (some msg), [model_path])
    | .ok nodes =>
      (Out.line "=== FIRST CONV LAYER INFO ===" ::
         (firstScanLoop nodes ++ secondScanLoop nodes
           ++ (Out.line "\n=== VARIABLES ===" ::
             ((varSectionV gv).1 ++ excSuffix (varSectionV gv).2))),
       [model_path, model_path])
  else
    ([Out.line ("Model path not found: " ++ model_path)], [])

/-- The world seen by the script: the filesystem answer for the path
check and the runtime's answer to each load call. -/
structure World where
  pathExists : Bool
  loads : Nat → Except String Model

/-- State-passing path check (line 6): a pure read of the world. -/
def stepExists (w : World) : Bool × World := (w.pathExists, w)

/-- State-passing load call (lines 8 and 34): a read of the world; the
script performs no operation that writes model state. -/
def stepLoad (i : Nat) (w : World) : Except String Model × World := (w.loads i, w)

/-- The script in state-passing form: every external operation threads
the world through, mirroring the source statement by statement. -/
def runS (w : World) : (List Out × List String) × World :=
  match stepExists w with
  | (false, w1) => (([Out.line ("Model path not found: " ++ model_path)], []), w1)
  | (true, w1) =>
    match stepLoad 0 w1 with
    | (.error msg, w2) => ((excSuffix (some msg), [model_path]), w2)
    | (.ok model, w2) =>
      match lookupSig model.signatures "serving_default" with
      | .error msg => ((excSuffix (some msg), [model_path]), w2)
      | .ok cf =>
        match cf.asGraphDef with
        | .error msg => ((excSuffix (some msg), [model_path]), w2)
        | .ok gd =>
          match stepLoad 1 w2 with
          | (r2, w3) =>
            ((Out.line "=== FIRST CONV LAYER INFO ===" ::
                (firstScanLoop gd.node ++ secondScanLoop gd.node
                  ++ (Out.line "\n=== VARIABLES ===" ::
                    ((varSection r2).1 ++ excSuffix (varSection r2).2))),
              [model_path, model_path]), w3)

/-- Fixture: a concrete function whose graph has an empty node list. -/
def cfW : ConcreteFunc := ⟨.ok ⟨[]⟩⟩

/-- Fixture: a model exposing the serving signature over `cfW` and no
variables (the first load's handle in concrete runs). -/
def mW : Model := ⟨[("serving_default", cfW)], []⟩

/-- Fixture: a kernel variable with twelve scalar values. -/
def vW : Variable :=
  ⟨"conv2d_1/kernel:0", [12], .ok [0, 1, 2, 3, 4, 5, 6, 7, 8, 9, 10, 11]⟩

/-- Fixture: a model with one variable (the second load's handle). -/
def m2W : Model := ⟨[], [vW]⟩

/-- Fixture: an oracle answering the first load with `mW` and every later
load with `m2W`. -/
def oW : Nat → Except String Model :=
  fun i => if i = 0 then .ok mW else .ok m2W

/-- Fixture: an oracle whose every load fails. -/
def oE : Nat → Except String Model := fun _ => .error "boom"

/-- Fixture: a node matching neither scan filter. -/
def nA : NodeDef := ⟨"dense/bias", "Const", [], []⟩

/-- Fixture: a constant node matching the first scan filter, with a shape
attribute. -/
def nB : NodeDef :=
  ⟨"conv2d_1/kernel", "Const", [], [("shape", "dim: 3 dim: 3 dim: 3 dim: 64")]⟩

/-- Fixture: a later node also matching the first scan filter. -/
def nC : NodeDef := ⟨"conv2d_2/kernel", "Const", [], []⟩

/-- Fixture: a Conv2D operation node matching the second scan filter. -/
def nD : NodeDef :=
  ⟨"model/conv2d_1/Conv2D", "Conv2D", ["input", "conv2d_1/kernel"], []⟩

/-- Fixture: a second Conv2D node matching the second scan filter. -/
def nE : NodeDef := ⟨"model/conv2d_1/Conv2D_1", "Conv2D", ["x", "y"], []⟩

/-- Fixture: a concrete function whose graph has nodes but none matching
the first scan filter. -/
def cfNM : ConcreteFunc := ⟨.ok ⟨[nA, nD]⟩⟩

/-- Fixture: the model exposing `cfNM` under the serving signature. -/
def mNM : Model := ⟨[("serving_default", cfNM)], []⟩

/-- Fixture: an oracle answering the first load with `mNM` and every
later load with `m2W`. -/
def oNM : Nat → Except String Model :=
  fun i => if i = 0 then .ok mNM else .ok m2W

/-! Helper lemmas about the scan loops and the run function. -/

theorem firstScanLoop_append_of_no_match (pre rest : List NodeDef)
    (h : ∀ m ∈ pre, firstConvPred m.name = false) :
    firstScanLoop (pre ++ rest) = firstScanLoop rest := by
  induction pre with
  | nil => rfl
  | cons n t ih =>
    have hn : firstConvPred n.name = false := h n (List.mem_cons_self n t)
    have ht : ∀ m ∈ t, firstConvPred m.name = false :=
      fun m hm => h m (List.mem_cons_of_mem n hm)
    simp [List.cons_append, firstScanLoop, hn, ih ht]

theorem secondScanLoop_append_of_no_match (pre rest : List NodeDef)
    (h : ∀ m ∈ pre, conv2dPred m = false) :
    secondScanLoop (pre ++ rest) = secondScanLoop rest := by
  induction pre with
  | nil => rfl
  | cons n t ih =>
    have hn : conv2dPred n = false := h n (List.mem_cons_self n t)
    have ht : ∀ m ∈ t, conv2dPred m = false :=
      fun m hm => h m (List.mem_cons_of_mem n hm)
    simp [List.cons_append, secondScanLoop, hn, ih ht]

theorem varScanLoop_append_of_no_match (pre rest : List Variable)
    (h : ∀ u ∈ pre, varPred u = false) :
    varScanLoop (pre ++ rest) = varScanLoop rest := by
  induction pre with
  | nil => rfl
  | cons v t ih =>
    have hv : varPred v = false := h v (List.mem_cons_self v t)
    have ht : ∀ u ∈ t, varPred u = false :=
      fun u hu => h u (List.mem_cons_of_mem v hu)
    simp [List.cons_append, varScanLoop, hv, ih ht]

theorem varSection_eq_varSectionV (r : Except String Model) :
    varSection r = varSectionV (getVars r) := by
  cases r <;> rfl

theorem run_shape (o : Nat → Except String Model) (m : Model)
    (cf : ConcreteFunc) (gd : GraphDef)
    (h0 : o 0 = .ok m)
    (h1 : lookupSig m.signatures "serving_default" = .ok cf)
    (h2 : cf.asGraphDef = .ok gd) :
    run o true = (Out.line "=== FIRST CONV LAYER INFO ===" ::
      (firstScanLoop gd.node ++ secondScanLoop gd.node
        ++ (Out.line "\n=== VARIABLES ===" ::
          ((varSection (o 1)).1 ++ excSuffix (varSection (o 1)).2))),
      [model_path, model_path]) := by
  simp [run, tryBody, h0, h1, h2, List.append_assoc]

theorem run_eq_runView (o : Nat → Except String Model) (pe : Bool) :
    run o pe = runView pe (getNodes (o 0)) (getVars (o 1)) := by
  cases pe with
  | false => rfl
  | true =>
    cases h0 : o 0 with
    | error msg => simp [run, tryBody, runView, getNodes, h0]
    | ok m =>
      cases h1 : lookupSig m.signatures "serving_default" with
      | error msg => simp [run, tryBody, runView, getNodes, h0, h1]
      | ok cf =>
        cases h2 : cf.asGraphDef with
        | error msg => simp [run, tryBody, runView, getNodes, h0, h1, h2]
        | ok gd =>
          simp [run, tryBody, runView, getNodes, h0, h1, h2,
            varSection_eq_varSectionV, List.append_assoc]

/-! Claim theorems. -/

/-- C1 (counterexample): the variable scan does not always print ten
values.  For a matching variable whose flattened contents hold three
scalars, the values line renders the three-element list `[1, 2, 3]`
(its own `take 10`), not a ten-element sample: the slice `[:10]` yields
every element when fewer than ten exist. -/
theorem varScan_short_kernel_prints_three_values :
    varScanLoop [⟨"conv2d_1/kernel:0", [3], .ok [1, 2, 3]⟩] =
      ([Out.line "Variable: conv2d_1/kernel:0",
        Out.line ("Shape: " ++ renderNatList [3]),
        Out.line ("First few values: " ++ renderIntList [1, 2, 3])], none) ∧
    ([(1 : Int), 2, 3].take 10 = [1, 2, 3] ∧ ¬ [(1 : Int), 2, 3].length = 10) :=
  ⟨by decide, by decide, by decide⟩

/-- C1 (amended): on a successful run, for the first variable of the
second load whose name contains both "conv2d_1" and "kernel", the script
prints under the "VARIABLES" heading that variable's name, its shape,
and the first `min 10 n` values of its flattened contents, where `n` is
the total element count — exactly ten only when at least ten exist. -/
theorem varScan_prints_first_match_take_ten
    (o : Nat → Except String Model) (m m2 : Model) (cf : ConcreteFunc)
    (gd : GraphDef) (pre post : List Variable) (v : Variable) (xs : List Int)
    (h0 : o 0 = .ok m)
    (h1 : lookupSig m.signatures "serving_default" = .ok cf)
    (h2 : cf.asGraphDef = .ok gd)
    (h3 : o 1 = .ok m2)
    (h4 : m2.vars = pre ++ v :: post)
    (hpre : ∀ u ∈ pre, varPred u = false)
    (hv : varPred v = true)
    (hx : v.numpyFlat = .ok xs) :
    (run o true).1 = Out.line "=== FIRST CONV LAYER INFO ===" ::
      (firstScanLoop gd.node ++ secondScanLoop gd.node
        ++ (Out.line "\n=== VARIABLES ===" ::
          [Out.line ("Variable: " ++ v.name),
           Out.line ("Shape: " ++ renderNatList v.shape),
           Out.line ("First few values: " ++ renderIntList (xs.take 10))])) ∧
    (xs.take 10).length = min 10 xs.length := by
  have hsec : varSection (o 1) =
      ([Out.line ("Variable: " ++ v.name),
        Out.line ("Shape: " ++ renderNatList v.shape),
        Out.line ("First few values: " ++ renderIntList (xs.take 10))], none) := by
    rw [h3]
    show varScanLoop m2.vars = _
    rw [h4, varScanLoop_append_of_no_match pre _ hpre]
    simp [varScanLoop, hv, hx]
  constructor
  · rw [run_shape o m cf gd h0 h1 h2]
    simp [hsec, excSuffix]
  · simp [List.length_take]

/-- C1 (witness): the amended theorem applied to a concrete twelve-value
kernel variable. -/
theorem varScan_prints_first_match_take_ten_witness :
    (oW 0 = .ok mW ∧ lookupSig mW.signatures "serving_default" = .ok cfW ∧
     cfW.asGraphDef = .ok ⟨[]⟩ ∧ oW 1 = .ok m2W ∧
     m2W.vars = [] ++ vW :: [] ∧ varPred vW = true ∧
     vW.numpyFlat = .ok [0, 1, 2, 3, 4, 5, 6, 7, 8, 9, 10, 11]) ∧
    ((run oW true).1 = Out.line "=== FIRST CONV LAYER INFO ===" ::
      (firstScanLoop (⟨[]⟩ : GraphDef).node ++ secondScanLoop (⟨[]⟩ : GraphDef).node
        ++ (Out.line "\n=== VARIABLES ===" ::
          [Out.line ("Variable: " ++ vW.name),
           Out.line ("Shape: " ++ renderNatList vW.shape),
           Out.line ("First few values: " ++
             renderIntList (([0, 1, 2, 3, 4, 5, 6, 7, 8, 9, 10, 11] : List Int).take 10))])) ∧
     (([0, 1, 2, 3, 4, 5, 6, 7, 8, 9, 10, 11] : List Int).take 10).length =
       min 10 ([0, 1, 2, 3, 4, 5, 6, 7, 8, 9, 10, 11] : List Int).length) :=
  ⟨⟨rfl, rfl, rfl, rfl, rfl, by decide, rfl⟩,
   varScan_prints_first_match_take_ten oW mW m2W cfW ⟨[]⟩ [] [] vW
     [0, 1, 2, 3, 4, 5, 6, 7, 8, 9, 10, 11] rfl rfl rfl rfl rfl
     (by intro u hu; exact absurd hu (List.not_mem_nil u)) (by decide) rfl⟩

/-- C2: the first scan prints the name and operation tag of the first
node (in list order) whose name passes the conv2d + kernel/weight
filter, plus its shape attribute when present, and stops there: the
output is independent of every node after the match. -/
theorem firstScan_prints_first_match (pre post : List NodeDef) (n : NodeDef)
    (hpre : ∀ m ∈ pre, firstConvPred m.name = false)
    (hn : firstConvPred n.name = true) :
    firstScanLoop (pre ++ n :: post) =
      Out.line ("Node: " ++ n.name) :: Out.line ("Op: " ++ n.op) :: shapeAttrOut n := by
  rw [firstScanLoop_append_of_no_match pre _ hpre]
  simp [firstScanLoop, hn]

/-- C2 (witness): the first scan applied to a node list with one
non-matching node, a matching constant node with a shape attribute, and
a later matching node that is not printed. -/
theorem firstScan_prints_first_match_witness :
    ((∀ m ∈ [nA], firstConvPred m.name = false) ∧ firstConvPred nB.name = true) ∧
    firstScanLoop ([nA] ++ nB :: [nC]) =
      Out.line ("Node: " ++ nB.name) :: Out.line ("Op: " ++ nB.op) :: shapeAttrOut nB :=
  ⟨⟨by decide, by decide⟩,
   firstScan_prints_first_match [nA] [nC] nB (by decide) (by decide)⟩

/-- C3: the second scan prints the name and input references of the
first node (in list order) whose operation tag is exactly "Conv2D" and
whose name contains "conv2d_1", and stops there: the output is
independent of every node after the match, so later matches are never
printed. -/
theorem secondScan_prints_first_conv2d (pre post : List NodeDef) (n : NodeDef)
    (hpre : ∀ m ∈ pre, conv2dPred m = false)
    (hn : conv2dPred n = true) :
    secondScanLoop (pre ++ n :: post) =
      [Out.line ("Conv2D node: " ++ n.name),
       Out.line ("Inputs: " ++ renderStrList n.input)] := by
  rw [secondScanLoop_append_of_no_match pre _ hpre]
  simp [secondScanLoop, hn]

/-- C3 (witness): the second scan applied to a list holding two Conv2D
nodes whose names contain "conv2d_1"; only the first is printed. -/
theorem secondScan_prints_first_conv2d_witness :
    ((∀ m ∈ [nA], conv2dPred m = false) ∧ conv2dPred nD = true) ∧
    secondScanLoop ([nA] ++ nD :: [nE]) =
      [Out.line ("Conv2D node: " ++ nD.name),
       Out.line ("Inputs: " ++ renderStrList nD.input)] :=
  ⟨⟨by decide, by decide⟩,
   secondScan_prints_first_conv2d [nA] [nE] nD (by decide) (by decide)⟩

/-- C4: whenever the guarded block raises an exception with message
`msg` after printing `lines`, the whole output of the run is exactly
those lines followed by "Error: msg" and the stack trace — the
exception is caught once at top level and nothing after the point of
failure executes. -/
theorem exception_caught_at_top_level (o : Nat → Except String Model)
    (lines : List Out) (msg : String) (log : List String)
    (h : tryBody o = (lines, some msg, log)) :
    (run o true).1 = lines ++ [Out.line ("Error: " ++ msg), Out.traceback] := by
  simp [run, h, excSuffix]

/-- C4 (witness): a run whose first load fails with message "boom"
prints exactly the error line and the stack trace. -/
theorem exception_caught_at_top_level_witness :
    tryBody oE = ([], some "boom", [model_path]) ∧
    (run oE true).1 = [] ++ [Out.line ("Error: " ++ "boom"), Out.traceback] :=
  ⟨rfl, exception_caught_at_top_level oE [] "boom" [model_path] rfl⟩

/-- C5: when the configured model path does not exist, the run prints
exactly "Model path not found: " followed by the configured path, issues
no load call (empty load log), and emits no error report or stack
trace. -/
theorem missing_path_reports_and_skips_load (o : Nat → Except String Model) :
    run o false = ([Out.line ("Model path not found: " ++ model_path)], []) ∧
    Out.traceback ∉ (run o false).1 :=
  ⟨rfl, by simp [run]⟩

/-- C6: when no node passes the first scan's filter, that section of the
output is its heading alone — the scan contributes no lines — and
execution continues normally into the second scan and the variable
section. -/
theorem firstScan_no_match_heading_only (o : Nat → Except String Model)
    (m : Model) (cf : ConcreteFunc) (gd : GraphDef)
    (h0 : o 0 = .ok m)
    (h1 : lookupSig m.signatures "serving_default" = .ok cf)
    (h2 : cf.asGraphDef = .ok gd)
    (hno : ∀ n ∈ gd.node, firstConvPred n.name = false) :
    firstScanLoop gd.node = [] ∧
    (run o true).1 = Out.line "=== FIRST CONV LAYER INFO ===" ::
      (secondScanLoop gd.node ++ (Out.line "\n=== VARIABLES ===" ::
        ((varSection (o 1)).1 ++ excSuffix (varSection (o 1)).2))) := by
  have hnil : firstScanLoop gd.node = [] := by
    have := firstScanLoop_append_of_no_match gd.node [] hno
    simpa using this
  refine ⟨hnil, ?_⟩
  rw [run_shape o m cf gd h0 h1 h2]
  simp [hnil]

/-- C6 (witness): a graph holding a bias constant and a Conv2D operation
node, neither passing the first scan's filter: the heading stands alone
and the Conv2D node is still printed by the second scan. -/
theorem firstScan_no_match_heading_only_witness :
    (oNM 0 = .ok mNM ∧ lookupSig mNM.signatures "serving_default" = .ok cfNM ∧
     cfNM.asGraphDef = .ok ⟨[nA, nD]⟩ ∧
     (∀ n ∈ (⟨[nA, nD]⟩ : GraphDef).node, firstConvPred n.name = false)) ∧
    (firstScanLoop (⟨[nA, nD]⟩ : GraphDef).node = [] ∧
     (run oNM true).1 = Out.line "=== FIRST CONV LAYER INFO ===" ::
      (secondScanLoop (⟨[nA, nD]⟩ : GraphDef).node ++
        (Out.line "\n=== VARIABLES ===" ::
          ((varSection (oNM 1)).1 ++ excSuffix (varSection (oNM 1)).2)))) :=
  ⟨⟨rfl, rfl, rfl, by decide⟩,
   firstScan_no_match_heading_only oNM mNM cfNM ⟨[nA, nD]⟩ rfl rfl rfl (by decide)⟩

/-- C7: on a run where the path exists and the first load, signature
resolution and graph read all succeed, the load operation is invoked
exactly twice, both times with the fixed model path; the graph-scan
portion of the output is computed from the first load's node list alone
and the variable section from the second load's result alone. -/
theorem model_loaded_exactly_twice (o : Nat → Except String Model)
    (m : Model) (cf : ConcreteFunc) (gd : GraphDef)
    (h0 : o 0 = .ok m)
    (h1 : lookupSig m.signatures "serving_default" = .ok cf)
    (h2 : cf.asGraphDef = .ok gd) :
    (run o true).2 = [model_path, model_path] ∧
    (run o true).1 = Out.line "=== FIRST CONV LAYER INFO ===" ::
      (firstScanLoop gd.node ++ secondScanLoop gd.node
        ++ (Out.line "\n=== VARIABLES ===" ::
          ((varSection (o 1)).1 ++ excSuffix (varSection (o 1)).2))) := by
  rw [run_shape o m cf gd h0 h1 h2]
  exact ⟨rfl, rfl⟩

/-- C7 (witness): the double-load theorem applied to a concrete oracle
with an empty graph. -/
theorem model_loaded_exactly_twice_witness :
    (oW 0 = .ok mW ∧ lookupSig mW.signatures "serving_default" = .ok cfW ∧
     cfW.asGraphDef = .ok ⟨[]⟩) ∧
    ((run oW true).2 = [model_path, model_path] ∧
     (run oW true).1 = Out.line "=== FIRST CONV LAYER INFO ===" ::
      (firstScanLoop (⟨[]⟩ : GraphDef).node ++ secondScanLoop (⟨[]⟩ : GraphDef).node
        ++ (Out.line "\n=== VARIABLES ===" ::
          ((varSection (oW 1)).1 ++ excSuffix (varSection (oW 1)).2)))) :=
  ⟨⟨rfl, rfl, rfl⟩, model_loaded_exactly_twice oW mW cfW ⟨[]⟩ rfl rfl rfl⟩

/-- C8: the script in state-passing form leaves the world — the
filesystem answer and every model the runtime hands out, with all node
records and variables — exactly as it found it, and its result is the
same output the direct semantics computes: every external operation the
source performs is a read. -/
theorem script_mutates_nothing (w : World) :
    (runS w).2 = w ∧ (runS w).1 = run w.loads w.pathExists := by
  rcases w with ⟨pe, loads⟩
  cases pe with
  | false => exact ⟨rfl, rfl⟩
  | true =>
    cases h0 : loads 0 with
    | error msg => simp [runS, stepExists, stepLoad, run, tryBody, h0]
    | ok m =>
      cases h1 : lookupSig m.signatures "serving_default" with
      | error msg => simp [runS, stepExists, stepLoad, run, tryBody, h0, h1]
      | ok cf =>
        cases h2 : cf.asGraphDef with
        | error msg => simp [runS, stepExists, stepLoad, run, tryBody, h0, h1, h2]
        | ok gd =>
          simp [runS, stepExists, stepLoad, run, tryBody, h0, h1, h2,
            List.append_assoc]

/-- C9: in the first scan's filter the conv2d test is case-insensitive
(it looks at the lowercased name) while the kernel/weight test is
case-sensitive (it looks at the original name): "CONV2D_1/kernel"
matches, "conv2d_1/KERNEL" does not, and the predicate is exactly the
conjunction of the lowercased conv2d test with the raw kernel-or-weight
test. -/
theorem firstScan_case_sensitivity :
    firstConvPred "CONV2D_1/kernel" = true ∧
    firstConvPred "conv2d_1/KERNEL" = false ∧
    ∀ name : String, firstConvPred name =
      (pyContains "conv2d" (pyLower name) &&
        (pyContains "kernel" name || pyContains "weight" name)) :=
  ⟨by decide, by decide, fun _ => rfl⟩

/-- C10: the output (and the load-call log) is a deterministic function
of what the script observes: two runs with the same path-existence
answer, the same resolved graph node list (or the same failure), and the
same variable collection from the second load (or the same failure)
produce identical output. -/
theorem output_deterministic_in_inputs (o1 o2 : Nat → Except String Model)
    (pe1 pe2 : Bool)
    (hpe : pe1 = pe2)
    (hg : getNodes (o1 0) = getNodes (o2 0))
    (hv : getVars (o1 1) = getVars (o2 1)) :
    run o1 pe1 = run o2 pe2 := by
  rw [run_eq_runView o1 pe1, run_eq_runView o2 pe2, hpe, hg, hv]

/-- C10 (witness): determinism applied to two syntactically distinct
oracles with equal observations. -/
theorem output_deterministic_in_inputs_witness :
    (true = true ∧ getNodes (oW 0) = getNodes ((fun i => oW (0 + i)) 0) ∧
     getVars (oW 1) = getVars ((fun i => oW (0 + i)) 1)) ∧
    run oW true = run (fun i => oW (0 + i)) true :=
  ⟨⟨rfl, rfl, rfl⟩,
   output_deterministic_in_inputs oW (fun i => oW (0 + i)) true true rfl rfl rfl⟩

end DebugModel
